import Mathlib

/-!
Shallow embedding of `kivy/adapters/listadapter.py`: the `ListAdapter`
class and its two cascading subclasses `SelectableListsAdapter` and
`AccumulatingListAdapter`.

Python values that flow through the adapter (data items, selection
entries) are modelled by the inductive `PVal`.  Python dicts of
view-construction arguments are association lists `List (String × DVal)`
with Python dict semantics (update-in-place keeps position, new keys
append).  Raised Python exceptions are modelled by `PyError` and the
`Except` monad; an exception aborts the statement in which it is raised,
so a handler that raises before an assignment leaves the assigned field
unchanged, which the embeddings make explicit by returning the final
value of `data` alongside the outcome.

The `SelectionSupport` mixin (kivy/adapters/mixins/selection.py) is not
part of the excerpt; the two of its methods that the `ListAdapter`
constructor reaches (`initialize_selection`, `check_for_empty_selection`)
are modelled from the spec where needed and are marked as such.
-/

/-- A value stored in a view-argument dict: an opaque payload
(string or int) or a reference to an adapter instance (adapters are
identified by a numeric id, standing for Python object identity). -/
inductive DVal where
  | dstr : String → DVal
  | dint : Int → DVal
  | dadapter : Nat → DVal
deriving DecidableEq, Repr

/-- A Python value as it appears in an adapter's `data` list or
`selection` list: a string, an int, an object carrying a `text`
attribute (the shape `AccumulatingListAdapter` consumes), a dict
(the shape `ListAdapter.get_view` consumes when no `args_converter`
is configured), or a reference to an adapter instance. -/
inductive PVal where
  | vstr : String → PVal
  | vint : Int → PVal
  | vobj : String → PVal
  | vdict : List (String × DVal) → PVal
  | vadapter : Nat → PVal
deriving DecidableEq, Repr

/-- Python `str()` rendering of a `PVal`, as used by
`str(observed_selection[0])` and `str(obj.text)`. -/
def pyStr : PVal → String
  | .vstr s => s
  | .vint n => toString n
  | .vobj t => "<SelectableItem text=" ++ t ++ ">"
  | .vdict _ => "<dict>"
  | .vadapter n => "<ListAdapter " ++ toString n ++ ">"

/-- Raised Python exception, by class: plain `Exception` (the class the
`ListAdapter` constructor raises), `TypeError`, `KeyError` (dict lookup
miss), `AttributeError` (missing attribute). -/
inductive PyError where
  | exception : String → PyError
  | typeError : String → PyError
  | keyError : String → PyError
  | attributeError : String → PyError
deriving DecidableEq, Repr

/-- Python dict lookup `d[k]` on an association list: first matching key. -/
def assocGet {α : Type} : List (String × α) → String → Option α
  | [], _ => none
  | (k', v) :: rest, k => if k' = k then some v else assocGet rest k

/-- Python dict assignment `d[k] = v` on an association list: an existing
key is overwritten in place (its position is kept), a new key is appended. -/
def assocSet {α : Type} : List (String × α) → String → α → List (String × α)
  | [], k, v => [(k, v)]
  | (k', v') :: rest, k, v =>
    if k' = k then (k, v) :: rest else (k', v') :: assocSet rest k v

/-- The exact concrete Python type of the constructor's `data` argument,
as observed by `type(data)`: built-in `list` and `tuple` are distinct
from `str`, `int`, `dict`, and from any subclass of `list` or `tuple`
(`type()` returns the concrete class, so a subclass is not equal to the
built-in class). -/
inductive PyType where
  | listT | tupleT | strT | intT | dictT | listSubclassT | tupleSubclassT
deriving DecidableEq, Repr

/-- The constructor's `data` argument: its exact concrete type plus its
element sequence (empty for a non-sequence scalar). -/
structure PyData where
  ty : PyType
  elems : List PVal
deriving DecidableEq, Repr

/-- The adapter state the claims touch: the `data` ListProperty (always
stored as a list, whatever sequence type was passed in), the `selection`
list and the `allow_empty_selection` flag from `SelectionSupport`. -/
structure LAState where
  data : List PVal
  selection : List PVal
  allow_empty_selection : Bool
deriving DecidableEq, Repr

/-- What happens inside `ListAdapter.__init__`, in order: the
`type(data)` check, the `self.bind(data=self.initialize_selection)`
call, the initial `self.data = data` assignment, and the two
`SelectionSupport` steps that the assignment synchronously triggers
through the binding. -/
inductive CtorEvent where
  | typeCheck
  | bindInitSelection
  | assignData
  | runInitSelection
  | runCheckForEmptySelection
deriving DecidableEq, Repr

namespace ListAdapter

/-- Modelled from the spec: `checkForEmptySelection` of the
`SelectionSupport` mixin, whose source
(kivy/adapters/mixins/selection.py) is not in the excerpt.  "if
selection is empty, data sequence is non-empty, and
`allow_empty_selection` is false, selects a deterministic default (the
first item)". -/
def check_for_empty_selection (st : LAState) : LAState :=
  match st.data with
  | [] => st
  | x :: _ =>
    if st.selection = [] ∧ st.allow_empty_selection = false then
      { st with selection := [x] }
    else st

/-- Modelled from the spec: `initializeSelection` of the
`SelectionSupport` mixin, whose source is not in the excerpt.
"Clears selection entries that no longer correspond to items in the new
sequence, then calls `checkForEmptySelection()`". -/
def initialize_selection (st : LAState) : LAState :=
  check_for_empty_selection
    { st with selection := st.selection.filter (fun s => decide (s ∈ st.data)) }

/-- `ListAdapter.__init__(self, data, **kwargs)`.  Returns the ordered
trace of constructor events together with either the raised exception or
the constructed state.  The source raises
`Exception('ListAdapter: input must be a tuple or list')` when
`type(data) not in (tuple, list)`; otherwise it binds
`initialize_selection` to `data` changes and then performs the initial
`self.data = data` assignment, which (modelled from the spec's
observation contract: synchronous, same-call-stack delivery) immediately
runs `initialize_selection`, hence `check_for_empty_selection`, before
the constructor returns.  The `data` ListProperty stores the elements as
a list whatever the input sequence type was. -/
def init (d : PyData) (allow_empty : Bool) :
    List CtorEvent × Except PyError LAState :=
  if d.ty = PyType.tupleT ∨ d.ty = PyType.listT then
    ([CtorEvent.typeCheck, CtorEvent.bindInitSelection, CtorEvent.assignData,
      CtorEvent.runInitSelection, CtorEvent.runCheckForEmptySelection],
     Except.ok (initialize_selection
       { data := d.elems, selection := [], allow_empty_selection := allow_empty }))
  else
    ([CtorEvent.typeCheck],
     Except.error (PyError.exception "ListAdapter: input must be a tuple or list"))

/-- `ListAdapter.get_count(self)`: `return len(self.data)`. -/
def get_count (data : List PVal) : Nat := data.length

/-- `ListAdapter.get_item(self, index)`:
`if index < 0 or index >= len(self.data): return None` else
`return self.data[index]`. -/
def get_item (data : List PVal) (index : Int) : Option PVal :=
  if index < 0 ∨ (data.length : Int) ≤ index then none
  else data.get? index.toNat

end ListAdapter

/-- The `Adapter` configuration that `ListAdapter.get_view` consults:
the adapter's identity, the optional `args_converter` function, and
whether a `cls` is configured (when not, the `template` branch is
taken). -/
structure AdapterCfg where
  id : Nat
  args_converter : Option (PVal → PVal)
  has_cls : Bool

/-- The constructed item view: which construction branch produced it
(`cls` instantiation versus `Builder.template`) and the exact argument
set passed to that constructor or template. -/
structure ItemView where
  via_cls : Bool
  item_args : List (String × DVal)
deriving DecidableEq, Repr

namespace ListAdapter

/-- The argument-resolution step of `get_view`:
`item_args = self.args_converter(item) if self.args_converter else item`. -/
def resolve_args (cfg : AdapterCfg) (item : PVal) : PVal :=
  match cfg.args_converter with
  | some conv => conv item
  | none => item

/-- `ListAdapter.get_view(self, index)`.  Returns the outcome (absent /
constructed view / raised exception) together with the final value of
`self.data`.  When no `args_converter` is configured, `item_args = item`
aliases the item inside `self.data`, so the in-place
`item_args['list_adapter'] = self` mutates that backing item; the
returned data list reflects this.  When the resolved arguments are not a
dict, the item assignment raises a `TypeError` (Python: the object does
not support item assignment) and `data` is untouched. -/
def get_view (cfg : AdapterCfg) (data : List PVal) (index : Int) :
    Except PyError (Option ItemView) × List PVal :=
  match get_item data index with
  | none => (Except.ok none, data)
  | some item =>
    match cfg.args_converter with
    | some conv =>
      match conv item with
      | PVal.vdict entries =>
        (Except.ok (some ⟨cfg.has_cls,
          assocSet entries "list_adapter" (DVal.dadapter cfg.id)⟩), data)
      | _ =>
        (Except.error (PyError.typeError "object does not support item assignment"),
         data)
    | none =>
      match item with
      | PVal.vdict entries =>
        let new_args := assocSet entries "list_adapter" (DVal.dadapter cfg.id)
        (Except.ok (some ⟨cfg.has_cls, new_args⟩),
         data.set index.toNat (PVal.vdict new_args))
      | _ =>
        (Except.error (PyError.typeError "object does not support item assignment"),
         data)

end ListAdapter

namespace SelectableListsAdapter

/-- `SelectableListsAdapter.on_selection_change(self, *args)`.  Inputs:
the observed adapter's `selection`, `self.selectable_lists_dict`, and
the current `self.data`.  Returns the outcome and the final value of
`self.data`: empty selection sets `data = []`; otherwise
`self.data = self.selectable_lists_dict[str(observed_selection[0])]`,
whose lookup raises `KeyError` when the key is absent, in which case the
assignment never happens and `data` keeps its prior value. -/
def on_selection_change (observed_selection : List PVal)
    (selectable_lists_dict : List (String × List PVal))
    (data : List PVal) : Except PyError Unit × List PVal :=
  match observed_selection with
  | [] => (Except.ok (), [])
  | x :: _ =>
    match assocGet selectable_lists_dict (pyStr x) with
    | some lst => (Except.ok (), lst)
    | none => (Except.error (PyError.keyError (pyStr x)), data)

end SelectableListsAdapter

namespace AccumulatingListAdapter

/-- Python attribute access `obj.text`: only the object-with-text shape
has it; anything else raises `AttributeError`. -/
def getattr_text : PVal → Except PyError PVal
  | PVal.vobj t => Except.ok (PVal.vstr t)
  | v => Except.error (PyError.attributeError (pyStr v))

/-- The list comprehension `[str(obj.text) for obj in observed_selection]`:
left to right, the first missing `text` attribute aborts the whole
comprehension. -/
def render_selected : List PVal → Except PyError (List PVal)
  | [] => Except.ok []
  | obj :: rest =>
    match getattr_text obj with
    | Except.error e => Except.error e
    | Except.ok t =>
      match render_selected rest with
      | Except.error e => Except.error e
      | Except.ok ts => Except.ok (PVal.vstr (pyStr t) :: ts)

/-- `AccumulatingListAdapter.on_selection_change(self, *args)`.  Inputs:
the observed adapter's `selection` and the current `self.data`; returns
the outcome and the final `self.data`.  Empty selection sets
`data = []`; otherwise `data` becomes the rendered `text` attributes of
the selected items in selection order, unless the comprehension raises,
in which case `data` keeps its prior value. -/
def on_selection_change (observed_selection : List PVal)
    (data : List PVal) : Except PyError Unit × List PVal :=
  match observed_selection with
  | [] => (Except.ok (), [])
  | sel =>
    match render_selected sel with
    | Except.ok strs => (Except.ok (), strs)
    | Except.error e => (Except.error e, data)

end AccumulatingListAdapter

/-- Whether a raised exception belongs to the `TypeError` class. -/
def isTypeErrorClass : PyError → Bool
  | PyError.typeError _ => true
  | _ => false

/-! ## Theorems for the claims -/

/-- C1: for every `SelectableListsAdapter`, when the observed adapter's
selection-change fires, an empty observed selection makes the derived
`data` empty, and otherwise `data` becomes the selectable-lists-table
entry under the string rendering of the first selected item. -/
theorem C1_selectable_lists_cascade (sel : List PVal)
    (table : List (String × List PVal)) (data : List PVal) :
    (sel = [] →
      SelectableListsAdapter.on_selection_change sel table data
        = (Except.ok (), [])) ∧
    (∀ x rest lst, sel = x :: rest →
      assocGet table (pyStr x) = some lst →
      SelectableListsAdapter.on_selection_change sel table data
        = (Except.ok (), lst)) := by
  constructor
  · rintro rfl
    rfl
  · rintro x rest lst rfl hget
    simp [SelectableListsAdapter.on_selection_change, hget]

/-- Witness for C1 at the spec's cascade scenario: table
`{"A": [1,2,3], "B": [4,5]}`; selection `["A"]` gives data `[1,2,3]`,
selection `["B"]` gives data `[4,5]`. -/
theorem C1_witness :
    (SelectableListsAdapter.on_selection_change [PVal.vstr "A"]
      [("A", [PVal.vint 1, PVal.vint 2, PVal.vint 3]),
       ("B", [PVal.vint 4, PVal.vint 5])] []
      = (Except.ok (), [PVal.vint 1, PVal.vint 2, PVal.vint 3])) ∧
    (SelectableListsAdapter.on_selection_change [PVal.vstr "B"]
      [("A", [PVal.vint 1, PVal.vint 2, PVal.vint 3]),
       ("B", [PVal.vint 4, PVal.vint 5])]
      [PVal.vint 1, PVal.vint 2, PVal.vint 3]
      = (Except.ok (), [PVal.vint 4, PVal.vint 5])) :=
  ⟨(C1_selectable_lists_cascade _ _ _).2 (PVal.vstr "A") []
      [PVal.vint 1, PVal.vint 2, PVal.vint 3] rfl (by decide),
   (C1_selectable_lists_cascade _ _ _).2 (PVal.vstr "B") []
      [PVal.vint 4, PVal.vint 5] rfl (by decide)⟩

/-- The comprehension over a selection of objects carrying the given
`text` attributes renders exactly those texts, in order. -/
theorem render_selected_of_texts (texts : List String) :
    AccumulatingListAdapter.render_selected (texts.map PVal.vobj)
      = Except.ok (texts.map PVal.vstr) := by
  induction texts with
  | nil => rfl
  | cons t rest ih =>
    simp [AccumulatingListAdapter.render_selected,
      AccumulatingListAdapter.getattr_text, ih, pyStr]

/-- C2: for every `AccumulatingListAdapter`, when the observed adapter's
selection-change fires, an empty observed selection makes the derived
`data` empty, and otherwise `data` becomes the string-rendered `text`
attributes of the selected items, in the observed selection's iteration
order. -/
theorem C2_accumulating_texts (texts : List String) (data : List PVal) :
    (AccumulatingListAdapter.on_selection_change [] data
      = (Except.ok (), [])) ∧
    (texts ≠ [] →
      AccumulatingListAdapter.on_selection_change (texts.map PVal.vobj) data
        = (Except.ok (), texts.map PVal.vstr)) := by
  constructor
  · rfl
  · intro hne
    cases texts with
    | nil => exact absurd rfl hne
    | cons t rest =>
      simp only [List.map_cons]
      simp [AccumulatingListAdapter.on_selection_change,
        show AccumulatingListAdapter.render_selected
            (PVal.vobj t :: rest.map PVal.vobj)
          = Except.ok (PVal.vstr t :: rest.map PVal.vstr) from
          render_selected_of_texts (t :: rest)]

/-- Witness for C2 at the spec's accumulation scenario: selected items
with texts "x" and "y" give data `["x","y"]`; empty selection gives
`[]`. -/
theorem C2_witness :
    (AccumulatingListAdapter.on_selection_change
      [PVal.vobj "x", PVal.vobj "y"] [PVal.vstr "stale"]
      = (Except.ok (), [PVal.vstr "x", PVal.vstr "y"])) ∧
    (AccumulatingListAdapter.on_selection_change [] [PVal.vstr "stale"]
      = (Except.ok (), [])) :=
  ⟨(C2_accumulating_texts ["x", "y"] [PVal.vstr "stale"]).2 (by decide),
   (C2_accumulating_texts ["x", "y"] [PVal.vstr "stale"]).1⟩

/-- C3: for every `ListAdapter` data sequence and integer index `i`,
`get_item` returns absent when `i < 0` or `i ≥ get_count`, and otherwise
returns exactly the `i`-th element of the data sequence. -/
theorem C3_get_item_contract (data : List PVal) (i : Int) :
    ((i < 0 ∨ (ListAdapter.get_count data : Int) ≤ i) →
      ListAdapter.get_item data i = none) ∧
    (0 ≤ i → i < (ListAdapter.get_count data : Int) →
      ∃ x, data.get? i.toNat = some x ∧
        ListAdapter.get_item data i = some x) := by
  constructor
  · intro h
    have h' : i < 0 ∨ (data.length : Int) ≤ i := h
    unfold ListAdapter.get_item
    rw [if_pos h']
  · intro h0 h1
    have h1' : i < (data.length : Int) := h1
    have hlt : i.toNat < data.length := by omega
    refine ⟨data.get ⟨i.toNat, hlt⟩, List.get?_eq_get hlt, ?_⟩
    unfold ListAdapter.get_item
    rw [if_neg (by omega), List.get?_eq_get hlt]

/-- Witness for C3: on data `["a"]`, index 0 is in range and yields the
element "a". -/
theorem C3_witness :
    ∃ x, ([PVal.vstr "a"].get? (Int.toNat 0)) = some x ∧
      ListAdapter.get_item [PVal.vstr "a"] 0 = some x :=
  (C3_get_item_contract [PVal.vstr "a"] 0).2 (by decide) (by decide)

/-- C6: for every `SelectableListsAdapter` with a non-empty observed
selection, if the string key of the first selected item is absent from
the selectable-lists table, the handler raises a `KeyError` that is
propagated, and the derived `data` keeps its prior value. -/
theorem C6_missing_key_propagates (x : PVal) (rest : List PVal)
    (table : List (String × List PVal)) (data : List PVal)
    (habs : assocGet table (pyStr x) = none) :
    SelectableListsAdapter.on_selection_change (x :: rest) table data
      = (Except.error (PyError.keyError (pyStr x)), data) := by
  simp [SelectableListsAdapter.on_selection_change, habs]

/-- Witness for C6: a table provisioned only for "A" and "B" with
observed selection `["C"]` raises `KeyError "C"` and leaves the derived
data `[9]` unchanged. -/
theorem C6_witness :
    SelectableListsAdapter.on_selection_change [PVal.vstr "C"]
      [("A", [PVal.vint 1]), ("B", [PVal.vint 2])] [PVal.vint 9]
      = (Except.error (PyError.keyError "C"), [PVal.vint 9]) :=
  C6_missing_key_propagates (PVal.vstr "C") []
    [("A", [PVal.vint 1]), ("B", [PVal.vint 2])] [PVal.vint 9] (by decide)

/-- Looking up a key right after `d[k] = v` yields `v`, wherever the key
sat (or did not sit) in the dict. -/
theorem assocGet_assocSet_self {α : Type} (l : List (String × α))
    (k : String) (v : α) :
    assocGet (assocSet l k v) k = some v := by
  induction l with
  | nil => simp [assocSet, assocGet]
  | cons p rest ih =>
    obtain ⟨k', v'⟩ := p
    by_cases h : k' = k
    · subst h
      simp [assocSet, assocGet]
    · simp [assocSet, assocGet, h, ih]

/-- C4: for every `ListAdapter`, `get_view i` is absent exactly when
`get_item i` is absent; and whenever the resolved arguments (the
`args_converter` applied to the item, or the item itself without one)
form a dict, the constructed view's argument set is exactly that dict
merged with the reserved key "list_adapter", under which the adapter
instance itself is injected. -/
theorem C4_get_view_contract (cfg : AdapterCfg) (data : List PVal) (i : Int) :
    ((ListAdapter.get_view cfg data i).1 = Except.ok none ↔
      ListAdapter.get_item data i = none) ∧
    (∀ item entries, ListAdapter.get_item data i = some item →
      ListAdapter.resolve_args cfg item = PVal.vdict entries →
      (ListAdapter.get_view cfg data i).1 = Except.ok (some
        ⟨cfg.has_cls, assocSet entries "list_adapter" (DVal.dadapter cfg.id)⟩) ∧
      assocGet (assocSet entries "list_adapter" (DVal.dadapter cfg.id))
        "list_adapter" = some (DVal.dadapter cfg.id)) := by
  constructor
  · cases h : ListAdapter.get_item data i with
    | none => simp [ListAdapter.get_view, h]
    | some item =>
      cases hc : cfg.args_converter with
      | none => cases item <;> simp [ListAdapter.get_view, h, hc]
      | some conv => cases hcv : conv item <;>
          simp [ListAdapter.get_view, h, hc, hcv]
  · intro item entries hitem hres
    refine ⟨?_, assocGet_assocSet_self entries "list_adapter" (DVal.dadapter cfg.id)⟩
    cases hc : cfg.args_converter with
    | none =>
      simp only [ListAdapter.resolve_args, hc] at hres
      subst hres
      simp [ListAdapter.get_view, hitem, hc]
    | some conv =>
      simp only [ListAdapter.resolve_args, hc] at hres
      simp [ListAdapter.get_view, hitem, hc, hres]

/-- Witness for C4: a one-element data list whose item is the dict
`{"text": "a"}`, no converter; index 0 yields a view whose args are the
item merged with the adapter back-reference, and index 5 is absent. -/
theorem C4_witness :
    ((ListAdapter.get_view ⟨3, none, true⟩
        [PVal.vdict [("text", DVal.dstr "a")]] 0).1
      = Except.ok (some ⟨true,
          [("text", DVal.dstr "a"), ("list_adapter", DVal.dadapter 3)]⟩)) ∧
    (assocGet [("text", DVal.dstr "a"), ("list_adapter", DVal.dadapter 3)]
        "list_adapter" = some (DVal.dadapter 3)) :=
  (C4_get_view_contract ⟨3, none, true⟩
      [PVal.vdict [("text", DVal.dstr "a")]] 0).2
    (PVal.vdict [("text", DVal.dstr "a")]) [("text", DVal.dstr "a")]
    (by decide) rfl

/-- C7: when no `args_converter` is configured and the item is not a
dict (not usable as a view-argument set), `get_view` fails: the
owner-injection item assignment raises, which is the concrete
realization of the spec's `ConfigurationError` for an item that is
neither transformed nor directly usable. -/
theorem C7_unusable_item_fails (cfg : AdapterCfg) (data : List PVal)
    (i : Int) (item : PVal)
    (hconv : cfg.args_converter = none)
    (hitem : ListAdapter.get_item data i = some item)
    (hnodict : ∀ entries, item ≠ PVal.vdict entries) :
    (ListAdapter.get_view cfg data i).1
      = Except.error (PyError.typeError "object does not support item assignment") := by
  cases item with
  | vdict entries => exact absurd rfl (hnodict entries)
  | vstr s => simp [ListAdapter.get_view, hitem, hconv]
  | vint n => simp [ListAdapter.get_view, hitem, hconv]
  | vobj t => simp [ListAdapter.get_view, hitem, hconv]
  | vadapter n => simp [ListAdapter.get_view, hitem, hconv]

/-- Witness for C7: data `[7]` (a bare int item), no converter; `get_view 0`
raises the item-assignment `TypeError`. -/
theorem C7_witness :
    (ListAdapter.get_view ⟨0, none, true⟩ [PVal.vint 7] 0).1
      = Except.error (PyError.typeError "object does not support item assignment") :=
  C7_unusable_item_fails ⟨0, none, true⟩ [PVal.vint 7] 0 (PVal.vint 7)
    rfl (by decide) (fun entries h => PVal.noConfusion h)

/-- C9: with no `args_converter` and an in-range index `i` whose item is
a dict, `get_view i` mutates the backing data item itself: afterwards
`get_item i` returns the item with "list_adapter" bound to the adapter
instance, and every other position of the data sequence is unchanged. -/
theorem C9_get_view_mutates_backing_item (cfg : AdapterCfg)
    (data : List PVal) (i : Int) (entries : List (String × DVal))
    (hconv : cfg.args_converter = none)
    (hitem : ListAdapter.get_item data i = some (PVal.vdict entries)) :
    (ListAdapter.get_item (ListAdapter.get_view cfg data i).2 i
      = some (PVal.vdict
          (assocSet entries "list_adapter" (DVal.dadapter cfg.id)))) ∧
    (assocGet (assocSet entries "list_adapter" (DVal.dadapter cfg.id))
      "list_adapter" = some (DVal.dadapter cfg.id)) ∧
    (∀ j : Int, j ≠ i →
      ListAdapter.get_item (ListAdapter.get_view cfg data i).2 j
        = ListAdapter.get_item data j) := by
  have hrange : ¬(i < 0 ∨ (data.length : Int) ≤ i) := by
    intro hc
    unfold ListAdapter.get_item at hitem
    rw [if_pos hc] at hitem
    exact Option.noConfusion hitem
  have hget : data.get? i.toNat = some (PVal.vdict entries) := by
    unfold ListAdapter.get_item at hitem
    rwa [if_neg hrange] at hitem
  have hlt : i.toNat < data.length := by omega
  have hdata2 : (ListAdapter.get_view cfg data i).2
      = data.set i.toNat (PVal.vdict
          (assocSet entries "list_adapter" (DVal.dadapter cfg.id))) := by
    simp [ListAdapter.get_view, hitem, hconv]
  refine ⟨?_, assocGet_assocSet_self entries "list_adapter" (DVal.dadapter cfg.id), ?_⟩
  · rw [hdata2]
    unfold ListAdapter.get_item
    rw [if_neg (by rw [List.length_set]; exact hrange)]
    exact List.get?_set_eq_of_lt _ hlt
  · intro j hji
    rw [hdata2]
    unfold ListAdapter.get_item
    rw [List.length_set]
    by_cases hj : j < 0 ∨ (data.length : Int) ≤ j
    · rw [if_pos hj, if_pos hj]
    · rw [if_neg hj, if_neg hj]
      exact List.get?_set_ne _ data (by omega)

/-- Witness for C9: data `[{"text": "a"}, 5]`, no converter; after
`get_view 0` the backing item at 0 carries the adapter back-reference
while position 1 is untouched. -/
theorem C9_witness :
    (ListAdapter.get_item
        (ListAdapter.get_view ⟨3, none, true⟩
          [PVal.vdict [("text", DVal.dstr "a")], PVal.vint 5] 0).2 0
      = some (PVal.vdict
          [("text", DVal.dstr "a"), ("list_adapter", DVal.dadapter 3)])) ∧
    (assocGet [("text", DVal.dstr "a"), ("list_adapter", DVal.dadapter 3)]
      "list_adapter" = some (DVal.dadapter 3)) ∧
    (∀ j : Int, j ≠ 0 →
      ListAdapter.get_item
          (ListAdapter.get_view ⟨3, none, true⟩
            [PVal.vdict [("text", DVal.dstr "a")], PVal.vint 5] 0).2 j
        = ListAdapter.get_item
            [PVal.vdict [("text", DVal.dstr "a")], PVal.vint 5] j) :=
  C9_get_view_mutates_backing_item ⟨3, none, true⟩
    [PVal.vdict [("text", DVal.dstr "a")], PVal.vint 5] 0
    [("text", DVal.dstr "a")] rfl (by decide)

/-- `check_for_empty_selection` touches only the selection, never the
data sequence. -/
theorem data_check_for_empty_selection (st : LAState) :
    (ListAdapter.check_for_empty_selection st).data = st.data := by
  obtain ⟨dt, sel, ae⟩ := st
  cases dt with
  | nil => rfl
  | cons x rest =>
    simp only [ListAdapter.check_for_empty_selection]
    split <;> rfl

/-- `initialize_selection` touches only the selection, never the data
sequence. -/
theorem data_initialize_selection (st : LAState) :
    (ListAdapter.initialize_selection st).data = st.data := by
  unfold ListAdapter.initialize_selection
  rw [data_check_for_empty_selection]

/-- C5 counterexample: at the concrete scalar input (an int), the
constructor raises the plain base `Exception` class with message
"ListAdapter: input must be a tuple or list" — not a `TypeError`-class
error, and not the message "must be a sequence". -/
theorem C5_counterexample :
    ((ListAdapter.init ⟨PyType.intT, []⟩ true).2
      = Except.error
          (PyError.exception "ListAdapter: input must be a tuple or list")) ∧
    (isTypeErrorClass
        (PyError.exception "ListAdapter: input must be a tuple or list")
      = false) :=
  ⟨rfl, rfl⟩

/-- C5 (amended): constructing a `ListAdapter` with an initial data
argument whose concrete type is not the built-in tuple or list raises a
plain `Exception` with message "ListAdapter: input must be a tuple or
list" (not a `TypeError` subclass) before any selection logic runs (the
type check is the only constructor event), and no adapter instance is
constructed. -/
theorem C5_amended_rejects_nonsequence (d : PyData) (ae : Bool)
    (h : ¬(d.ty = PyType.tupleT ∨ d.ty = PyType.listT)) :
    ListAdapter.init d ae
      = ([CtorEvent.typeCheck],
         Except.error
           (PyError.exception "ListAdapter: input must be a tuple or list")) := by
  unfold ListAdapter.init
  rw [if_neg h]

/-- Witness for C5 (amended) at the scalar input: the trace stops at the
type check and the constructor raises. -/
theorem C5_witness :
    ListAdapter.init ⟨PyType.intT, []⟩ true
      = ([CtorEvent.typeCheck],
         Except.error
           (PyError.exception "ListAdapter: input must be a tuple or list")) :=
  C5_amended_rejects_nonsequence ⟨PyType.intT, []⟩ true (by decide)

/-- C8: for every accepted data argument, the constructor's event order
is: type check, then binding of `initialize_selection` to
data-replacement notifications, then the initial data assignment, which
synchronously triggers `initialize_selection` followed by
`check_for_empty_selection`, all before the constructor returns; the
constructed state is exactly `initialize_selection` applied to the
freshly assigned data.  Consequently, with non-empty data and
`allow_empty_selection = false`, the state returned by the constructor
already has the first item selected. -/
theorem C8_ctor_bind_then_assign (d : PyData) (ae : Bool)
    (h : d.ty = PyType.tupleT ∨ d.ty = PyType.listT) :
    (ListAdapter.init d ae
      = ([CtorEvent.typeCheck, CtorEvent.bindInitSelection,
          CtorEvent.assignData, CtorEvent.runInitSelection,
          CtorEvent.runCheckForEmptySelection],
         Except.ok (ListAdapter.initialize_selection
           { data := d.elems, selection := [],
             allow_empty_selection := ae }))) ∧
    (∀ x rest, d.elems = x :: rest → ae = false →
      ∃ st, (ListAdapter.init d ae).2 = Except.ok st ∧
        st.selection = [x]) := by
  constructor
  · unfold ListAdapter.init
    rw [if_pos h]
  · rintro x rest helems rfl
    refine ⟨ListAdapter.initialize_selection
        { data := d.elems, selection := [],
          allow_empty_selection := false }, ?_, ?_⟩
    · unfold ListAdapter.init
      rw [if_pos h]
    · rw [helems]
      simp [ListAdapter.initialize_selection,
        ListAdapter.check_for_empty_selection]

/-- Witness for C8: data `["A","B"]` with `allow_empty_selection` false;
the state the constructor returns already has "A" selected. -/
theorem C8_witness :
    ∃ st, (ListAdapter.init
        ⟨PyType.listT, [PVal.vstr "A", PVal.vstr "B"]⟩ false).2
      = Except.ok st ∧ st.selection = [PVal.vstr "A"] :=
  (C8_ctor_bind_then_assign
      ⟨PyType.listT, [PVal.vstr "A", PVal.vstr "B"]⟩ false
      (Or.inr rfl)).2 (PVal.vstr "A") [PVal.vstr "B"] rfl rfl

/-- C10: the constructor accepts a data argument exactly when its
concrete type is the built-in tuple or the built-in list (a string or a
list/tuple subclass is rejected with the construction error), and any
accepted argument — a tuple included — has its elements stored in the
adapter's list-valued `data` property. -/
theorem C10_exact_builtin_type_check (d : PyData) (ae : Bool) :
    ((∃ st, (ListAdapter.init d ae).2 = Except.ok st) ↔
      (d.ty = PyType.tupleT ∨ d.ty = PyType.listT)) ∧
    (∀ st, (ListAdapter.init d ae).2 = Except.ok st →
      st.data = d.elems) := by
  constructor
  · constructor
    · rintro ⟨st, hst⟩
      by_contra h
      unfold ListAdapter.init at hst
      rw [if_neg h] at hst
      exact Except.noConfusion hst
    · intro h
      refine ⟨ListAdapter.initialize_selection
          { data := d.elems, selection := [],
            allow_empty_selection := ae }, ?_⟩
      unfold ListAdapter.init
      rw [if_pos h]
  · intro st hst
    by_cases h : d.ty = PyType.tupleT ∨ d.ty = PyType.listT
    · unfold ListAdapter.init at hst
      rw [if_pos h] at hst
      have hst' : ListAdapter.initialize_selection
          { data := d.elems, selection := [],
            allow_empty_selection := ae } = st := Except.ok.inj hst
      rw [← hst', data_initialize_selection]
    · unfold ListAdapter.init at hst
      rw [if_neg h] at hst
      exact Except.noConfusion hst

/-- Witness for C10: a tuple `("A",)` is accepted and its element ends
up in the list-valued `data` property. -/
theorem C10_witness :
    (ListAdapter.initialize_selection
        { data := [PVal.vstr "A"], selection := [],
          allow_empty_selection := true }).data = [PVal.vstr "A"] :=
  (C10_exact_builtin_type_check ⟨PyType.tupleT, [PVal.vstr "A"]⟩ true).2
    (ListAdapter.initialize_selection
      { data := [PVal.vstr "A"], selection := [],
        allow_empty_selection := true }) rfl
